import Mathlib

/-
Verification of the `DcRefCell` core of the Rust-Debug-Checked crate.

The crate's checked ("Debug", `debug_assertions`) profile wraps
`std::cell::RefCell<T>`; the unchecked ("Release") profile wraps
`UnsafeCell<T>` and performs no bookkeeping.  This development embeds the
checked profile: the cell is a value together with the `RefCell` borrow
flag, and each operation of `src/dc_ref_cell/mod.rs` is translated into a
pure state-passing function.  A failed borrow in the source is an
`unwrap`/`expect` panic that a test harness can catch; it is modelled by
the `none`/`error` case of the operation's result, together with the cell
state as the caught panic leaves it.  Machine `isize` is modelled as `Int`
(overflow of the borrow counter is out of scope).
-/

namespace DebugChecked


/-- `is_reading` of `std::cell::RefCell`: the flag denotes live shared borrows. -/
def isReading (b : Int) : Bool := 0 < b

/-- `is_writing` of `std::cell::RefCell`: the flag denotes a live exclusive borrow. -/
def isWriting (b : Int) : Bool := b < 0

/-- Checked-profile `DcRefCell<T>`: a `RefCell<T>`, i.e. the wrapped value
plus the borrow flag. -/
structure DcRefCell (T : Type) where
  value : T
  flag : Int
  deriving DecidableEq, Repr

variable {T : Type}

/-- `DcRefCell::new` (checked): `Self(RefCell::new(value))`, flag unborrowed. -/
def DcRefCell.new (value : T) : DcRefCell T := ⟨value, 0⟩

/-- Effect of `RefCell::try_borrow` on the borrow flag (`BorrowRef::new`):
the incremented flag must denote reading, otherwise no shared borrow is
taken and the flag is left as it was. -/
def tryBorrowFlag (b : Int) : Option Int :=
  if isReading (b + 1) then some (b + 1) else none

/-- Effect of `RefCell::try_borrow_mut` on the flag (`BorrowRefMut::new`):
succeeds only from the unborrowed flag, setting the writing sentinel `-1`. -/
def tryBorrowMutFlag (b : Int) : Option Int :=
  if b = 0 then some (-1) else none

/-- Drop of a shared guard (`BorrowRef::drop`): decrements the flag. -/
def releaseSharedFlag (b : Int) : Int := b - 1

/-- Drop of an exclusive guard (`BorrowRefMut::drop`): increments the
(negative) flag. -/
def releaseMutFlag (b : Int) : Int := b + 1

/-- `DcRefCell::borrow` (checked): `Ref(self.0.try_borrow().unwrap())`.
Returns the cell afterwards and whether the borrow succeeded; on failure
(`unwrap` panic) the flag is untouched because `try_borrow` writes the
flag only on its success path. -/
def DcRefCell.borrowStep (c : DcRefCell T) : DcRefCell T × Bool :=
  match tryBorrowFlag c.flag with
  | some f => ({ c with flag := f }, true)
  | none => (c, false)

/-- `DcRefCell::borrow_mut` (checked): `RefMut(self.0.try_borrow_mut().unwrap())`.
Returns the cell afterwards and whether the borrow succeeded; on failure
the flag is untouched. -/
def DcRefCell.borrowMutStep (c : DcRefCell T) : DcRefCell T × Bool :=
  match tryBorrowMutFlag c.flag with
  | some f => ({ c with flag := f }, true)
  | none => (c, false)

/-- `DcRefCell::lt` (checked): `*self.borrow() < *other.borrow()`.  `self`
is borrowed first, then `other`; both shared guards drop when the
expression ends, so only the Boolean outcome remains; `none` models the
`unwrap` panic when a borrow fails. -/
def DcRefCell.lt [LinearOrder T] (a b : DcRefCell T) : Option Bool :=
  match tryBorrowFlag a.flag with
  | none => none
  | some _ =>
    match tryBorrowFlag b.flag with
    | none => none
    | some _ => some (decide (a.value < b.value))

/-- `DcRefCell::le` (checked).  The source body is
`*self.borrow() < *other.borrow()` — it compares with `<`, not `<=`,
although its doc comment says "tests less than or equal to". -/
def DcRefCell.le [LinearOrder T] (a b : DcRefCell T) : Option Bool :=
  match tryBorrowFlag a.flag with
  | none => none
  | some _ =>
    match tryBorrowFlag b.flag with
    | none => none
    | some _ => some (decide (a.value < b.value))

/-- `DcRefCell::gt` (checked).  The source body is
`*self.borrow() < *other.borrow()` — it compares with `<`, not `>`,
although its doc comment says "tests greater than". -/
def DcRefCell.gt [LinearOrder T] (a b : DcRefCell T) : Option Bool :=
  match tryBorrowFlag a.flag with
  | none => none
  | some _ =>
    match tryBorrowFlag b.flag with
    | none => none
    | some _ => some (decide (a.value < b.value))

/-- `DcRefCell::ge` (checked).  The source body is
`*self.borrow() < *other.borrow()` — it compares with `<`, not `>=`,
although its doc comment says "tests greater than or equal to". -/
def DcRefCell.ge [LinearOrder T] (a b : DcRefCell T) : Option Bool :=
  match tryBorrowFlag a.flag with
  | none => none
  | some _ =>
    match tryBorrowFlag b.flag with
    | none => none
    | some _ => some (decide (a.value < b.value))

/-- `DcRefCell::lt_expect` (checked): as `lt` but via `borrow_expect(msg)`,
which differs from `borrow` only in the panic message. -/
def DcRefCell.lt_expect [LinearOrder T] (a b : DcRefCell T) (_msg : String) : Option Bool :=
  match tryBorrowFlag a.flag with
  | none => none
  | some _ =>
    match tryBorrowFlag b.flag with
    | none => none
    | some _ => some (decide (a.value < b.value))

/-- `DcRefCell::le_expect` (checked): source body
`*self.borrow_expect(msg) < *other.borrow_expect(msg)` — the same `<` as `le`. -/
def DcRefCell.le_expect [LinearOrder T] (a b : DcRefCell T) (_msg : String) : Option Bool :=
  match tryBorrowFlag a.flag with
  | none => none
  | some _ =>
    match tryBorrowFlag b.flag with
    | none => none
    | some _ => some (decide (a.value < b.value))

/-- `DcRefCell::gt_expect` (checked): source body uses `<`, as `gt` does. -/
def DcRefCell.gt_expect [LinearOrder T] (a b : DcRefCell T) (_msg : String) : Option Bool :=
  match tryBorrowFlag a.flag with
  | none => none
  | some _ =>
    match tryBorrowFlag b.flag with
    | none => none
    | some _ => some (decide (a.value < b.value))

/-- `DcRefCell::ge_expect` (checked): source body uses `<`, as `ge` does. -/
def DcRefCell.ge_expect [LinearOrder T] (a b : DcRefCell T) (_msg : String) : Option Bool :=
  match tryBorrowFlag a.flag with
  | none => none
  | some _ =>
    match tryBorrowFlag b.flag with
    | none => none
    | some _ => some (decide (a.value < b.value))

/-- C1: the claim states `le(a,b) = (*a <= *b)`, `gt(a,b) = (*a > *b)` and
`ge(a,b) = (*a >= *b)` for unborrowed cells.  The code computes `*a < *b`
in all of `le`, `gt`, `ge` and their `_expect` variants (contradicting
their own doc comments), so on unborrowed cells holding `1` and `1` both
`le` and `ge` return `false` though `1 ≤ 1`, and on cells holding `2` and
`1`, `gt` returns `false` though `2 > 1`.  Only `lt` behaves as claimed. -/
theorem le_gt_ge_compute_lt :
    (DcRefCell.le (DcRefCell.new (1 : Int)) (DcRefCell.new 1) = some false ∧ (1 : Int) ≤ 1) ∧
    (DcRefCell.gt (DcRefCell.new (2 : Int)) (DcRefCell.new 1) = some false ∧ (1 : Int) < 2) ∧
    (DcRefCell.ge (DcRefCell.new (1 : Int)) (DcRefCell.new 1) = some false ∧ (1 : Int) ≤ 1) ∧
    DcRefCell.le_expect (DcRefCell.new (1 : Int)) (DcRefCell.new 1) "msg" = some false ∧
    DcRefCell.gt_expect (DcRefCell.new (2 : Int)) (DcRefCell.new 1) "msg" = some false ∧
    DcRefCell.ge_expect (DcRefCell.new (1 : Int)) (DcRefCell.new 1) "msg" = some false ∧
    DcRefCell.lt (DcRefCell.new (1 : Int)) (DcRefCell.new 2) = some true := by
  decide

/-- `DcRefCell::replace` (checked):
`mem::replace(&mut *self.borrow_mut(), t)`.  Returns the cell afterwards
and, on success, the old value; the exclusive guard drops when the
statement ends.  On a failed `borrow_mut` the cell is untouched. -/
def DcRefCell.replaceStep (c : DcRefCell T) (t : T) : DcRefCell T × Option T :=
  match tryBorrowMutFlag c.flag with
  | none => (c, none)
  | some f => (⟨t, releaseMutFlag f⟩, some c.value)

/-- `DcRefCell::clone` (checked): `Self::new(self.borrow_mut().clone())` —
it acquires an exclusive borrow, not a shared one.  Returns the original
cell afterwards and, on success, the fresh cell; `Clone` on the wrapped
value is its value copy. -/
def DcRefCell.cloneStep (c : DcRefCell T) : DcRefCell T × Option (DcRefCell T) :=
  match tryBorrowMutFlag c.flag with
  | none => (c, none)
  | some f => (⟨c.value, releaseMutFlag f⟩, some (DcRefCell.new c.value))

/-- `DcRefCell::clone_expect` (checked):
`Self::new(self.borrow_mut_expect(msg).clone())` — the same exclusive
acquisition as `clone`, differing only in the panic message. -/
def DcRefCell.cloneExpectStep (c : DcRefCell T) (_msg : String) : DcRefCell T × Option (DcRefCell T) :=
  match tryBorrowMutFlag c.flag with
  | none => (c, none)
  | some f => (⟨c.value, releaseMutFlag f⟩, some (DcRefCell.new c.value))

/-- `DcRefCell::swap` on two distinct cells (checked):
`mem::swap(&mut *self.borrow_mut(), &mut *other.borrow_mut())`.  `self` is
mutably borrowed first, then `other`; both guards drop when the statement
ends.  `none` models the `unwrap` panic when either acquisition fails. -/
def DcRefCell.swap (a b : DcRefCell T) : Option (DcRefCell T × DcRefCell T) :=
  match tryBorrowMutFlag a.flag with
  | none => none
  | some fa =>
    match tryBorrowMutFlag b.flag with
    | none => none
    | some fb => some (⟨b.value, releaseMutFlag fa⟩, ⟨a.value, releaseMutFlag fb⟩)

/-- `DcRefCell::swap` when both arguments alias the same cell (checked):
the first `borrow_mut` sets the writing flag on the cell; the second
`borrow_mut` then runs against that updated flag, and on its `unwrap`
panic the unwinding drops the first guard, restoring the flag.
`Except.error` carries the cell as the caught panic leaves it. -/
def DcRefCell.swapSelfRun (c : DcRefCell T) : Except (DcRefCell T) (DcRefCell T) :=
  match tryBorrowMutFlag c.flag with
  | none => Except.error c
  | some f1 =>
    match tryBorrowMutFlag f1 with
    | none => Except.error ⟨c.value, releaseMutFlag f1⟩
    | some f2 => Except.ok ⟨c.value, releaseMutFlag (releaseMutFlag f2)⟩

/-- `Ref::clone` (checked): `Ref(std::cell::Ref::clone(&orig.0))`.  Cloning
the underlying `BorrowRef` re-increments the cell's borrow flag; the
function is total — no failure path exists.  The argument is the cell whose
flag the live guard's `BorrowRef` points at. -/
def Ref.clone (c : DcRefCell T) : DcRefCell T := { c with flag := c.flag + 1 }

/-- Unchecked-profile `Ref<T>` is a plain shared reference, modelled by the
value it points at. -/
structure RefUnchecked (T : Type) where
  value : T
  deriving DecidableEq, Repr

/-- `Ref::clone` (unchecked): `Ref(orig.0)`, a plain copy of the reference;
total, never fails. -/
def RefUnchecked.clone (r : RefUnchecked T) : RefUnchecked T := ⟨r.value⟩

/-- Outcome of `replace_with_dc`: the value written back to the referenced
location, a panic that unwound to the caller, or a process abort. -/
inductive Outcome (T : Type)
  | ok (value : T)
  | panicUnwind
  | aborted
  deriving DecidableEq, Repr

/-- `replace_with_dc` (checked, `debug_assertions`): reads the old value
out of the reference by `ptr::read`, runs the closure under
`panic::catch_unwind`, aborts the whole process if the closure panicked
(`unwrap_or_else(process::abort)`), and otherwise writes the closure's
result back with `ptr::write`.  The closure is modelled as `T → Option T`
with `none` standing for a panic. -/
def replace_with_dc (reference : T) (closure : T → Option T) : Outcome T :=
  match closure reference with
  | none => Outcome.aborted
  | some v => Outcome.ok v

/-- One client-visible operation of the checked cell's borrow state
machine: the two acquisitions and the drops of the two guard kinds. -/
inductive CellOp
  | borrow
  | borrowMut
  | dropShared
  | dropMut
  deriving DecidableEq, Repr

/-- Borrow state machine state of one checked cell: the `RefCell` flag plus
the number of live guards of each kind the client is holding. -/
structure CellState where
  flag : Int
  sharedLive : Nat
  mutLive : Nat
  deriving DecidableEq, Repr

/-- Fresh cell: unborrowed flag, no live guards. -/
def CellState.init : CellState := ⟨0, 0, 0⟩

/-- Effect of one operation.  A failed acquisition is a caught panic and
leaves the state as it was; a drop only applies when a guard of that kind
is live (there is nothing to drop otherwise). -/
def applyOp (s : CellState) : CellOp → CellState
  | CellOp.borrow =>
    match tryBorrowFlag s.flag with
    | some f => { s with flag := f, sharedLive := s.sharedLive + 1 }
    | none => s
  | CellOp.borrowMut =>
    match tryBorrowMutFlag s.flag with
    | some f => { s with flag := f, mutLive := s.mutLive + 1 }
    | none => s
  | CellOp.dropShared =>
    if s.sharedLive = 0 then s
    else { s with flag := releaseSharedFlag s.flag, sharedLive := s.sharedLive - 1 }
  | CellOp.dropMut =>
    if s.mutLive = 0 then s
    else { s with flag := releaseMutFlag s.flag, mutLive := s.mutLive - 1 }

/-- Runs a finite sequence of operations from a given state. -/
def runOps (s : CellState) (ops : List CellOp) : CellState := ops.foldl applyOp s

/-- Invariant tying the flag to the live guards: at most one exclusive
guard, an exclusive guard excludes shared guards and pins the flag at the
`-1` sentinel, and with no exclusive guard the flag counts the live shared
guards. -/
def CellInv (s : CellState) : Prop :=
  s.mutLive ≤ 1 ∧
  (s.mutLive = 1 → s.sharedLive = 0 ∧ s.flag = -1) ∧
  (s.mutLive = 0 → s.flag = (s.sharedLive : Int))

theorem cellInv_init : CellInv CellState.init := by
  refine ⟨by simp [CellState.init], by simp [CellState.init], by simp [CellState.init]⟩

theorem tryBorrowFlag_of_nonneg (b : Int) (h : 0 ≤ b) :
    tryBorrowFlag b = some (b + 1) := by
  unfold tryBorrowFlag isReading
  split
  · rfl
  · rename_i hc
    simp only [decide_eq_true_eq] at hc
    exact absurd (show (0 : Int) < b + 1 by omega) hc

theorem tryBorrowFlag_of_neg (b : Int) (h : b < 0) :
    tryBorrowFlag b = none := by
  unfold tryBorrowFlag isReading
  split
  · rename_i hc
    simp only [decide_eq_true_eq] at hc
    exact absurd hc (show ¬(0 : Int) < b + 1 by omega)
  · rfl

theorem tryBorrowMutFlag_zero : tryBorrowMutFlag 0 = some (-1) := rfl

theorem tryBorrowMutFlag_of_ne (b : Int) (h : b ≠ 0) :
    tryBorrowMutFlag b = none := by
  rw [tryBorrowMutFlag, if_neg h]

theorem cellInv_applyOp (s : CellState) (op : CellOp) (h : CellInv s) :
    CellInv (applyOp s op) := by
  obtain ⟨f, sh, m⟩ := s
  obtain ⟨h1, h2, h3⟩ := h
  replace h1 : m ≤ 1 := h1
  replace h2 : m = 1 → sh = 0 ∧ f = -1 := h2
  replace h3 : m = 0 → f = (sh : Int) := h3
  cases op with
  | borrow =>
    rcases le_or_lt 0 f with hf | hf
    · have he : applyOp ⟨f, sh, m⟩ CellOp.borrow = ⟨f + 1, sh + 1, m⟩ := by
        simp only [applyOp, tryBorrowFlag_of_nonneg f hf]
      rw [he]
      show m ≤ 1 ∧ (m = 1 → sh + 1 = 0 ∧ f + 1 = -1) ∧ (m = 0 → f + 1 = ((sh + 1 : Nat) : Int))
      rcases Nat.eq_zero_or_pos m with hm | hm
      · have hf3 := h3 hm
        subst hm
        refine ⟨by omega, by omega, fun _ => by push_cast; omega⟩
      · have := (h2 (by omega)).2
        omega
    · have he : applyOp ⟨f, sh, m⟩ CellOp.borrow = ⟨f, sh, m⟩ := by
        simp only [applyOp, tryBorrowFlag_of_neg f hf]
      rw [he]
      exact ⟨h1, h2, h3⟩
  | borrowMut =>
    by_cases hf : f = 0
    · subst hf
      have hm0 : m = 0 := by
        rcases Nat.eq_zero_or_pos m with hm | hm
        · exact hm
        · have := (h2 (by omega)).2
          omega
      have hsh : sh = 0 := by
        have := h3 hm0
        omega
      subst hm0
      subst hsh
      have he : applyOp ⟨0, 0, 0⟩ CellOp.borrowMut = ⟨-1, 0, 1⟩ := by
        simp only [applyOp, tryBorrowMutFlag_zero]
      rw [he]
      show 1 ≤ 1 ∧ (1 = 1 → 0 = 0 ∧ (-1 : Int) = -1) ∧ (1 = 0 → (-1 : Int) = ((0 : Nat) : Int))
      exact ⟨le_refl 1, fun _ => ⟨rfl, rfl⟩, fun hc => by omega⟩
    · have he : applyOp ⟨f, sh, m⟩ CellOp.borrowMut = ⟨f, sh, m⟩ := by
        simp only [applyOp, tryBorrowMutFlag_of_ne f hf]
      rw [he]
      exact ⟨h1, h2, h3⟩
  | dropShared =>
    by_cases hsh : sh = 0
    · have he : applyOp ⟨f, sh, m⟩ CellOp.dropShared = ⟨f, sh, m⟩ := by
        simp only [applyOp, if_pos hsh]
      rw [he]
      exact ⟨h1, h2, h3⟩
    · have he : applyOp ⟨f, sh, m⟩ CellOp.dropShared = ⟨f - 1, sh - 1, m⟩ := by
        simp only [applyOp, if_neg hsh]
        rfl
      rw [he]
      show m ≤ 1 ∧ (m = 1 → sh - 1 = 0 ∧ f - 1 = -1) ∧ (m = 0 → f - 1 = ((sh - 1 : Nat) : Int))
      have hm0 : m = 0 := by
        rcases Nat.eq_zero_or_pos m with hm | hm
        · exact hm
        · exact absurd ((h2 (by omega)).1) hsh
      have hfs := h3 hm0
      refine ⟨by omega, by omega, fun _ => by omega⟩
  | dropMut =>
    by_cases hm : m = 0
    · have he : applyOp ⟨f, sh, m⟩ CellOp.dropMut = ⟨f, sh, m⟩ := by
        simp only [applyOp, if_pos hm]
      rw [he]
      exact ⟨h1, h2, h3⟩
    · have he : applyOp ⟨f, sh, m⟩ CellOp.dropMut = ⟨f + 1, sh, m - 1⟩ := by
        simp only [applyOp, if_neg hm]
        rfl
      rw [he]
      show m - 1 ≤ 1 ∧ (m - 1 = 1 → sh = 0 ∧ f + 1 = -1) ∧ (m - 1 = 0 → f + 1 = (sh : Int))
      obtain ⟨hsh0, hf1⟩ := h2 (by omega)
      refine ⟨by omega, by omega, fun _ => by omega⟩

theorem cellInv_runOps (ops : List CellOp) (s : CellState) (h : CellInv s) :
    CellInv (runOps s ops) := by
  induction ops generalizing s with
  | nil => exact h
  | cons op rest ih =>
    rw [runOps, List.foldl_cons]
    exact ih (applyOp s op) (cellInv_applyOp s op h)

/-- The cell is unborrowed: flag `0`. -/
def DcRefCell.Unborrowed (c : DcRefCell T) : Prop := c.flag = 0

/-- The cell has live shared borrows: positive flag. -/
def DcRefCell.SharedBorrowed (c : DcRefCell T) : Prop := 0 < c.flag

/-- The cell is exclusively borrowed: the writing sentinel `-1`. -/
def DcRefCell.ExclusivelyBorrowed (c : DcRefCell T) : Prop := c.flag = -1

/-- C2: in the checked profile `borrow` succeeds and adds one shared claim
exactly when the cell is unborrowed or shared, and fails (a reported,
caught panic) exactly when it is exclusively borrowed; `borrow_mut`
succeeds, moving the cell to the exclusive state, exactly when the cell is
unborrowed, and fails in every other state.  The hypothesis restricts the
flag to the values reachable by the state machine (see
`reachable_states_no_coexistence`). -/
theorem borrow_borrowMut_success_characterisation (c : DcRefCell T) (h : -1 ≤ c.flag) :
    (c.borrowStep.2 = true ↔ (c.Unborrowed ∨ c.SharedBorrowed)) ∧
    (c.borrowStep.2 = true → c.borrowStep.1.flag = c.flag + 1 ∧ c.borrowStep.1.value = c.value) ∧
    (c.borrowStep.2 = false ↔ c.ExclusivelyBorrowed) ∧
    (c.borrowMutStep.2 = true ↔ c.Unborrowed) ∧
    (c.borrowMutStep.2 = true → c.borrowMutStep.1.ExclusivelyBorrowed ∧ c.borrowMutStep.1.value = c.value) ∧
    (c.borrowMutStep.2 = false ↔ ¬c.Unborrowed) := by
  obtain ⟨v, f⟩ := c
  replace h : -1 ≤ f := h
  simp only [DcRefCell.Unborrowed, DcRefCell.SharedBorrowed, DcRefCell.ExclusivelyBorrowed]
  rcases lt_trichotomy f 0 with hf | hf | hf
  · have hf1 : f = -1 := by omega
    subst hf1
    have hb : DcRefCell.borrowStep (⟨v, -1⟩ : DcRefCell T) = (⟨v, -1⟩, false) := by
      simp only [DcRefCell.borrowStep, tryBorrowFlag_of_neg (-1) (by norm_num)]
    have hm : DcRefCell.borrowMutStep (⟨v, -1⟩ : DcRefCell T) = (⟨v, -1⟩, false) := by
      simp only [DcRefCell.borrowMutStep, tryBorrowMutFlag_of_ne (-1) (by norm_num)]
    rw [hb, hm]
    norm_num
  · subst hf
    have hb : DcRefCell.borrowStep (⟨v, 0⟩ : DcRefCell T) = (⟨v, 1⟩, true) := by
      simp only [DcRefCell.borrowStep, tryBorrowFlag_of_nonneg 0 (by norm_num)]
      norm_num
    have hm : DcRefCell.borrowMutStep (⟨v, 0⟩ : DcRefCell T) = (⟨v, -1⟩, true) := by
      simp only [DcRefCell.borrowMutStep, tryBorrowMutFlag_zero]
    rw [hb, hm]
    norm_num
  · have hb : DcRefCell.borrowStep (⟨v, f⟩ : DcRefCell T) = (⟨v, f + 1⟩, true) := by
      simp only [DcRefCell.borrowStep, tryBorrowFlag_of_nonneg f (by omega)]
    have hm : DcRefCell.borrowMutStep (⟨v, f⟩ : DcRefCell T) = (⟨v, f⟩, false) := by
      simp only [DcRefCell.borrowMutStep, tryBorrowMutFlag_of_ne f (by omega)]
    rw [hb, hm]
    exact ⟨⟨fun _ => Or.inr hf, fun _ => rfl⟩,
           fun _ => ⟨rfl, rfl⟩,
           ⟨fun hx => absurd hx (by simp), fun hx => absurd hx (by omega)⟩,
           ⟨fun hx => absurd hx (by simp), fun hx => absurd hx (by omega)⟩,
           fun hx => absurd hx (by simp),
           ⟨fun _ => by omega, fun _ => rfl⟩⟩

theorem borrow_borrowMut_success_characterisation_witness :
    -1 ≤ (DcRefCell.new (0 : Int)).flag ∧
    ((DcRefCell.new (0 : Int)).borrowStep.2 = true ↔
      ((DcRefCell.new (0 : Int)).Unborrowed ∨ (DcRefCell.new (0 : Int)).SharedBorrowed)) :=
  ⟨by norm_num [DcRefCell.new],
   (borrow_borrowMut_success_characterisation (DcRefCell.new (0 : Int)) (by norm_num [DcRefCell.new])).1⟩

/-- C3: along every finite sequence of `borrow`, `borrow_mut` and
guard-release operations started from a fresh cell, a live shared guard
and a live exclusive guard never coexist, and the borrow flag never goes
negative except for the single `-1` sentinel of the exclusive state. -/
theorem reachable_states_no_coexistence (ops : List CellOp) :
    ¬(0 < (runOps CellState.init ops).sharedLive ∧ 0 < (runOps CellState.init ops).mutLive) ∧
    -1 ≤ (runOps CellState.init ops).flag ∧
    ((runOps CellState.init ops).flag < 0 → (runOps CellState.init ops).flag = -1) := by
  obtain ⟨h1, h2, h3⟩ := cellInv_runOps ops CellState.init cellInv_init
  refine ⟨?_, ?_, ?_⟩
  · rintro ⟨hs, hm⟩
    have hm1 : (runOps CellState.init ops).mutLive = 1 := by omega
    have := (h2 hm1).1
    omega
  · by_cases hm : (runOps CellState.init ops).mutLive = 0
    · have := h3 hm
      omega
    · have := (h2 (by omega)).2
      omega
  · intro hneg
    by_cases hm : (runOps CellState.init ops).mutLive = 0
    · have := h3 hm
      omega
    · exact (h2 (by omega)).2

/-- C4: `swap` on two distinct unborrowed cells exchanges exactly the two
wrapped values, and both cells are unborrowed once the statement's two
exclusive guards have dropped. -/
theorem swap_distinct_unborrowed_exchanges (a b : DcRefCell T)
    (ha : a.Unborrowed) (hb : b.Unborrowed) :
    DcRefCell.swap a b = some (⟨b.value, 0⟩, ⟨a.value, 0⟩) := by
  obtain ⟨av, af⟩ := a
  obtain ⟨bv, bf⟩ := b
  replace ha : af = 0 := ha
  replace hb : bf = 0 := hb
  subst ha
  subst hb
  simp only [DcRefCell.swap, tryBorrowMutFlag_zero, releaseMutFlag]
  norm_num

theorem swap_distinct_unborrowed_exchanges_witness :
    (DcRefCell.new (1 : Int)).Unborrowed ∧ (DcRefCell.new (2 : Int)).Unborrowed ∧
    DcRefCell.swap (DcRefCell.new (1 : Int)) (DcRefCell.new 2) =
      some (⟨2, 0⟩, ⟨1, 0⟩) :=
  ⟨rfl, rfl, swap_distinct_unborrowed_exchanges (DcRefCell.new 1) (DcRefCell.new 2) rfl rfl⟩

/-- C5: `swap` of an unborrowed cell with itself does not complete as a
no-op: the first internal `borrow_mut` takes the exclusive flag, the
second fails on the now exclusively borrowed cell and its panic is the
reported failure; after the unwinding drops the first guard the cell is
exactly as before the call. -/
theorem self_swap_reports_failure (c : DcRefCell T) (h : c.Unborrowed) :
    DcRefCell.swapSelfRun c = Except.error c := by
  obtain ⟨v, f⟩ := c
  replace h : f = 0 := h
  subst h
  simp only [DcRefCell.swapSelfRun, tryBorrowMutFlag_zero,
    tryBorrowMutFlag_of_ne (-1) (by norm_num), releaseMutFlag]
  norm_num

theorem self_swap_reports_failure_witness :
    (DcRefCell.new (5 : Int)).Unborrowed ∧
    DcRefCell.swapSelfRun (DcRefCell.new (5 : Int)) = Except.error (DcRefCell.new 5) :=
  ⟨rfl, self_swap_reports_failure (DcRefCell.new 5) rfl⟩

/-- C6: on an unborrowed cell whose current content is `x` (as produced by
`new(x)` or by the last `replace` that stored `x`), `replace(t)` returns
exactly `x`, and afterwards the cell holds exactly `t` and is unborrowed. -/
theorem replace_returns_old_value (c : DcRefCell T) (x t : T)
    (h : c.Unborrowed) (hx : c.value = x) :
    DcRefCell.replaceStep c t = (DcRefCell.new t, some x) := by
  obtain ⟨v, f⟩ := c
  replace h : f = 0 := h
  replace hx : v = x := hx
  subst h
  subst hx
  simp only [DcRefCell.replaceStep, tryBorrowMutFlag_zero, releaseMutFlag, DcRefCell.new]
  norm_num

theorem replace_returns_old_value_witness :
    (DcRefCell.new (5 : Int)).Unborrowed ∧ (DcRefCell.new (5 : Int)).value = 5 ∧
    DcRefCell.replaceStep (DcRefCell.new (5 : Int)) 7 = (DcRefCell.new 7, some 5) :=
  ⟨rfl, rfl, replace_returns_old_value (DcRefCell.new 5) 5 7 rfl rfl⟩

/-- C7: whenever a guard acquisition fails — directly in `borrow` or
`borrow_mut`, or inside an operation that acquires one internally
(`replace`, `clone`, `clone_expect`) — the failure is the caught panic
case of the operation and the cell's borrow flag and wrapped value are
exactly as before the call: the failing `try_borrow`/`try_borrow_mut`
writes the flag only on its success path. -/
theorem failed_acquisition_leaves_cell_unchanged (c : DcRefCell T) (t : T) (msg : String) :
    (c.borrowStep.2 = false → c.borrowStep.1 = c) ∧
    (c.borrowMutStep.2 = false → c.borrowMutStep.1 = c) ∧
    ((c.replaceStep t).2 = none → (c.replaceStep t).1 = c) ∧
    (c.cloneStep.2 = none → c.cloneStep.1 = c) ∧
    ((c.cloneExpectStep msg).2 = none → (c.cloneExpectStep msg).1 = c) := by
  obtain ⟨v, f⟩ := c
  refine ⟨?_, ?_, ?_, ?_, ?_⟩
  · intro hfail
    cases htb : tryBorrowFlag f with
    | some g => simp [DcRefCell.borrowStep, htb] at hfail
    | none => simp [DcRefCell.borrowStep, htb]
  · intro hfail
    cases htb : tryBorrowMutFlag f with
    | some g => simp [DcRefCell.borrowMutStep, htb] at hfail
    | none => simp [DcRefCell.borrowMutStep, htb]
  · intro hfail
    cases htb : tryBorrowMutFlag f with
    | some g => simp [DcRefCell.replaceStep, htb] at hfail
    | none => simp [DcRefCell.replaceStep, htb]
  · intro hfail
    cases htb : tryBorrowMutFlag f with
    | some g => simp [DcRefCell.cloneStep, htb] at hfail
    | none => simp [DcRefCell.cloneStep, htb]
  · intro hfail
    cases htb : tryBorrowMutFlag f with
    | some g => simp [DcRefCell.cloneExpectStep, htb] at hfail
    | none => simp [DcRefCell.cloneExpectStep, htb]

theorem failed_acquisition_leaves_cell_unchanged_witness :
    (DcRefCell.borrowStep (⟨0, -1⟩ : DcRefCell Int)).2 = false ∧
    (DcRefCell.borrowStep (⟨0, -1⟩ : DcRefCell Int)).1 = (⟨0, -1⟩ : DcRefCell Int) ∧
    (DcRefCell.borrowMutStep (⟨0, -1⟩ : DcRefCell Int)).2 = false ∧
    (DcRefCell.borrowMutStep (⟨0, -1⟩ : DcRefCell Int)).1 = (⟨0, -1⟩ : DcRefCell Int) :=
  ⟨by decide,
   (failed_acquisition_leaves_cell_unchanged (⟨0, -1⟩ : DcRefCell Int) 0 "m").1 (by decide),
   by decide,
   (failed_acquisition_leaves_cell_unchanged (⟨0, -1⟩ : DcRefCell Int) 0 "m").2.1 (by decide)⟩

/-- C8: `clone` and `clone_expect` acquire an exclusive borrow internally
(`self.borrow_mut().clone()`), so on a cell with at least one live shared
guard both fail with the reported failure, although the cell is only
immutably borrowed. -/
theorem clone_fails_under_shared_borrow (c : DcRefCell T) (msg : String)
    (h : c.SharedBorrowed) :
    c.cloneStep = (c, none) ∧ c.cloneExpectStep msg = (c, none) := by
  obtain ⟨v, f⟩ := c
  replace h : 0 < f := h
  have hne := tryBorrowMutFlag_of_ne f (by omega)
  constructor <;> simp [DcRefCell.cloneStep, DcRefCell.cloneExpectStep, hne]

theorem clone_fails_under_shared_borrow_witness :
    (⟨3, 1⟩ : DcRefCell Int).SharedBorrowed ∧
    DcRefCell.cloneStep (⟨3, 1⟩ : DcRefCell Int) = (⟨3, 1⟩, none) :=
  ⟨by norm_num [DcRefCell.SharedBorrowed],
   (clone_fails_under_shared_borrow (⟨3, 1⟩ : DcRefCell Int) "m"
     (by norm_num [DcRefCell.SharedBorrowed])).1⟩

/-- C9: `Ref::clone` on a live shared guard never fails — the checked
function is total with no failure case (and `RefUnchecked.clone` merely
copies the reference) — and in the checked profile it increments the
cell's shared claim count by one, leaving the cell shared, so the original
guard stays usable. -/
theorem ref_clone_total_and_increments (c : DcRefCell T) (h : c.SharedBorrowed) :
    (Ref.clone c).flag = c.flag + 1 ∧ (Ref.clone c).value = c.value ∧
    (Ref.clone c).SharedBorrowed ∧ (∀ r : RefUnchecked T, RefUnchecked.clone r = r) := by
  obtain ⟨v, f⟩ := c
  replace h : 0 < f := h
  exact ⟨rfl, rfl, by simp only [Ref.clone, DcRefCell.SharedBorrowed]; omega, fun r => rfl⟩

theorem ref_clone_total_and_increments_witness :
    (⟨7, 1⟩ : DcRefCell Int).SharedBorrowed ∧
    (Ref.clone (⟨7, 1⟩ : DcRefCell Int)).flag = 1 + 1 :=
  ⟨by norm_num [DcRefCell.SharedBorrowed],
   (ref_clone_total_and_increments (⟨7, 1⟩ : DcRefCell Int)
     (by norm_num [DcRefCell.SharedBorrowed])).1⟩

/-- C10: in the checked profile `replace_with_dc` runs the closure between
the raw `ptr::read` of the old value and the `ptr::write` of the new one
under `catch_unwind`; a closure panic there aborts the whole process and
never unwinds to the caller, while a normal return leaves the referenced
location holding exactly the closure's result applied to the old value. -/
theorem replace_with_dc_aborts_or_writes (r : T) (closure : T → Option T) :
    (closure r = none → replace_with_dc r closure = Outcome.aborted) ∧
    (∀ v, closure r = some v → replace_with_dc r closure = Outcome.ok v) ∧
    replace_with_dc r closure ≠ Outcome.panicUnwind := by
  refine ⟨fun h => by simp [replace_with_dc, h], fun v h => by simp [replace_with_dc, h], ?_⟩
  cases h : closure r <;> simp [replace_with_dc, h]

theorem replace_with_dc_aborts_or_writes_witness :
    ((fun _ : Int => (none : Option Int)) 0 = none) ∧
    replace_with_dc (0 : Int) (fun _ => none) = Outcome.aborted ∧
    ((fun x : Int => some (x + 1)) 5 = some 6) ∧
    replace_with_dc (5 : Int) (fun x => some (x + 1)) = Outcome.ok 6 :=
  ⟨rfl, (replace_with_dc_aborts_or_writes 0 (fun _ => none)).1 rfl, rfl,
   (replace_with_dc_aborts_or_writes 5 (fun x => some (x + 1))).2.1 6 rfl⟩

end DebugChecked
